import Mathlib

/-!
Shallow embedding of the ESP32 double pulse test generator
(main_rmt.c) and verification of its specification claims.

All machine integers are modelled as Nat with explicit reduction
modulo 2^32 where the C code performs uint32_t arithmetic.
-/

namespace DPT

/-- Modulus of uint32_t arithmetic. -/
def UINT32_MOD : Nat := 2 ^ 32

/-- The four double pulse timing parameters, main_rmt.c lines 51-54
(static uint32_t pulse1_high, pulse1_low, pulse2_high, pulse2_low). -/
structure PulseParams where
  pulse1_high : Nat
  pulse1_low : Nat
  pulse2_high : Nat
  pulse2_low : Nat
deriving DecidableEq, Repr

/-- Default parameter values from the initializers at lines 51-54. -/
def defaultParams : PulseParams := ⟨5, 1, 3, 10000⟩

/-- One rmt_item32_t as initialized at lines 424-433: two
(duration, level) halves. -/
structure RmtItem where
  duration0 : Nat
  level0 : Nat
  duration1 : Nat
  level1 : Nat
deriving DecidableEq, Repr

/-- The two RMT TX channels: RMT_TX_CHANNEL_P = RMT_CHANNEL_0 and
RMT_TX_CHANNEL_N = RMT_CHANNEL_1 (lines 44-45). -/
inductive RmtChannel
  | channel0
  | channel1
deriving DecidableEq, Repr

/-- Tick conversion at lines 418-421: for example p1h = pulse1_high * 80,
computed in uint32_t, hence reduced modulo 2^32. -/
def ticks (x : Nat) : Nat := x * 80 % UINT32_MOD

/-- Positive channel items, double_pulse_items_p at lines 424-427. -/
def double_pulse_items_p (p : PulseParams) : List RmtItem :=
  [ ⟨ticks p.pulse1_high, 1, ticks p.pulse1_low, 0⟩,
    ⟨ticks p.pulse2_high, 1, ticks p.pulse2_low, 0⟩ ]

/-- Negative channel items, double_pulse_items_n at lines 430-433. -/
def double_pulse_items_n (p : PulseParams) : List RmtItem :=
  [ ⟨ticks p.pulse1_high, 0, ticks p.pulse1_low, 1⟩,
    ⟨ticks p.pulse2_high, 0, ticks p.pulse2_low, 1⟩ ]

/-- Level inversion of one item: durations kept, levels flipped.
Used to compare the negative waveform against the positive one. -/
def invertItem (it : RmtItem) : RmtItem :=
  ⟨it.duration0, 1 - it.level0, it.duration1, 1 - it.level1⟩

/-- Hardware calls made by send_double_pulse, in the order the C code
issues them (lines 435-455).  writeItems carries the fourth argument of
rmt_write_items as passed at the call site (false). -/
inductive HwEvent
  | txStop (ch : RmtChannel)
  | writeItems (ch : RmtChannel) (items : List RmtItem) (flag : Bool)
  | delayTicks (n : Nat)
  | enterCritical
  | txStart (ch : RmtChannel)
  | exitCritical
  | waitTxDone (ch : RmtChannel)
deriving DecidableEq, Repr

/-- The straight-line body of send_double_pulse (lines 416-458) as the
sequence of hardware calls it performs: stop both channels, write both
item arrays without immediate send, vTaskDelay(50), enter the critical
section, start both channels, exit, then wait for completion of both. -/
def send_double_pulse_trace (p : PulseParams) : List HwEvent :=
  [ HwEvent.txStop RmtChannel.channel0,
    HwEvent.txStop RmtChannel.channel1,
    HwEvent.writeItems RmtChannel.channel0 (double_pulse_items_p p) false,
    HwEvent.writeItems RmtChannel.channel1 (double_pulse_items_n p) false,
    HwEvent.delayTicks 50,
    HwEvent.enterCritical,
    HwEvent.txStart RmtChannel.channel0,
    HwEvent.txStart RmtChannel.channel1,
    HwEvent.exitCritical,
    HwEvent.waitTxDone RmtChannel.channel0,
    HwEvent.waitTxDone RmtChannel.channel1 ]

/-- True when a trace contains at least one rmt_write_items call. -/
def hasWriteEvent (tr : List HwEvent) : Bool :=
  tr.any fun e =>
    match e with
    | HwEvent.writeItems _ _ _ => true
    | _ => false

/-- Character class of the C isspace function, used by atoi. -/
def isSpaceChar (c : Char) : Bool :=
  c == ' ' || c == '\t' || c == '\n' || c == '\x0B' || c == '\x0C' || c == '\r'

/-- Accumulator loop of atoi: consume leading decimal digits, stop at
the first non-digit. -/
def atoiDigits : List Char → Nat → Nat
  | [], acc => acc
  | c :: cs, acc =>
    if c.isDigit then atoiDigits cs (acc * 10 + (c.toNat - 48)) else acc

/-- Modelled from the C standard library atoi used at lines 315-324:
skip leading whitespace, read an optional sign, then decimal digits;
a string with no leading digits yields 0. -/
def atoiM (s : String) : Int :=
  match s.toList.dropWhile isSpaceChar with
  | '-' :: cs => -(atoiDigits cs 0 : Int)
  | '+' :: cs => (atoiDigits cs 0 : Int)
  | cs => (atoiDigits cs 0 : Int)

/-- Conversion of a field value string to the stored uint32_t value:
atoi followed by the C int to uint32_t conversion (reduction mod 2^32). -/
def cfield (v : String) : Nat := (atoiM v % (UINT32_MOD : Int)).toNat

/-- Modelled vendor function httpd_query_key_value as called at lines
314-323: the request body is represented by its parsed key/value pairs;
the lookup returns the first value bound to the key when that value and
its terminating NUL fit the destination buffer (ESP_OK), and fails
otherwise (key absent, or ESP_ERR_HTTPD_RESULT_TRUNC when the value
does not fit bufSize). -/
def query_key_value (body : List (String × String)) (key : String)
    (bufSize : Nat) : Option String :=
  match body.find? fun kv => kv.1 == key with
  | some kv => if kv.2.length + 1 ≤ bufSize then some kv.2 else none
  | none => none

/-- Result of one HTTP handler invocation: the parameter state after the
handler, the hardware calls it made, the body it sent with
httpd_resp_send, and whether it returned ESP_OK. -/
structure HandlerResult where
  params : PulseParams
  trace : List HwEvent
  response : String
  ok : Bool
deriving DecidableEq, Repr

/-- One guarded field update of set_params_handler: when the lookup
returned ESP_OK the field receives atoi of the extracted value,
otherwise the record is untouched. -/
def updField (p : PulseParams) (r : Option String)
    (st : PulseParams → Nat → PulseParams) : PulseParams :=
  match r with
  | some v => st p (cfield v)
  | none => p

/-- set_params_handler, lines 303-334: each of the four keys p1h, p1l,
p2h, p2l is extracted into a 10 byte buffer (char param_val[10]) and, on
ESP_OK, stored through atoi; the handler makes no RMT call and always
answers "Parameters Set!" with ESP_OK once a body was received. -/
def set_params_handler (p : PulseParams) (body : List (String × String)) :
    HandlerResult :=
  let p1 := updField p (query_key_value body "p1h" 10)
    fun q n => { q with pulse1_high := n }
  let p2 := updField p1 (query_key_value body "p1l" 10)
    fun q n => { q with pulse1_low := n }
  let p3 := updField p2 (query_key_value body "p2h" 10)
    fun q n => { q with pulse2_high := n }
  let p4 := updField p3 (query_key_value body "p2l" 10)
    fun q n => { q with pulse2_low := n }
  ⟨p4, [], "Parameters Set!", true⟩

/-- trigger_handler, lines 336-341: delay 1000 ms, run
send_double_pulse, answer "Triggered!". The parameter state is not
changed. -/
def trigger_handler (p : PulseParams) : HandlerResult :=
  ⟨p, send_double_pulse_trace p, "Triggered!", true⟩

/-- Observable actions of the button interrupt path (lines 65-87). -/
inductive ButtonEvent
  | disableIntr (gpio : Nat)
  | queueSendFromISR (gpio : Nat)
  | queueReceive
  | delayMs (n : Nat)
  | generate (tr : List HwEvent)
  | enableIntr (gpio : Nat)
deriving DecidableEq, Repr

/-- button_isr_handler, lines 65-73: disable the interrupt of the GPIO,
then enqueue the GPIO number from the ISR.  Nothing else happens in the
ISR. -/
def button_isr_trace (gpio : Nat) : List ButtonEvent :=
  [ButtonEvent.disableIntr gpio, ButtonEvent.queueSendFromISR gpio]

/-- One loop iteration of button_event_task, lines 78-85: receive an
event, vTaskDelay(pdMS_TO_TICKS(1000)), send_double_pulse,
vTaskDelay(pdMS_TO_TICKS(200)), re-enable the interrupt. -/
def button_event_iteration (p : PulseParams) (io : Nat) : List ButtonEvent :=
  [ ButtonEvent.queueReceive,
    ButtonEvent.delayMs 1000,
    ButtonEvent.generate (send_double_pulse_trace p),
    ButtonEvent.delayMs 200,
    ButtonEvent.enableIntr io ]

/-!
Interleaving model for the trigger paths (claim C1).  The HTTP trigger
handler and the button worker are independent FreeRTOS tasks that both
call send_double_pulse with no lock, no state flag and no conditional:
each task is a straight-line instruction list and a scheduler may
interleave them freely.
-/

/-- One instruction of a task program. -/
inductive Instr
  | queueReceive
  | delayMs (n : Nat)
  | compileItems
  | hw (e : HwEvent)
  | respond (s : String)
  | enableIntr (gpio : Nat)
deriving DecidableEq, Repr

/-- The body of send_double_pulse as task instructions: read the
parameters and build the item arrays (lines 417-433), then the eleven
hardware calls (lines 435-455). -/
def send_prog (p : PulseParams) : List Instr :=
  Instr.compileItems :: (send_double_pulse_trace p).map Instr.hw

/-- The trigger_handler task body, lines 336-341: vTaskDelay(1000 ms),
send_double_pulse, httpd_resp_send. -/
def trigger_handler_prog (p : PulseParams) : List Instr :=
  Instr.delayMs 1000 :: send_prog p ++ [Instr.respond "Triggered!"]

/-- The button_event_task loop body, lines 78-85. -/
def button_worker_prog (p : PulseParams) (io : Nat) : List Instr :=
  Instr.queueReceive :: Instr.delayMs 1000 :: send_prog p
    ++ [Instr.delayMs 200, Instr.enableIntr io]

/-- Program counters of the two concurrently runnable trigger tasks. -/
structure TrigSystem where
  netPc : Nat
  btnPc : Nat
deriving DecidableEq, Repr

/-- Scheduler step: true advances the network handler by one
instruction, false advances the button worker.  A finished task stays
put.  No instruction inspects shared state, exactly as in the source:
neither path tests any busy flag before calling send_double_pulse. -/
def trigStep (s : TrigSystem) (choice : Bool) : TrigSystem :=
  if choice then
    if s.netPc < (trigger_handler_prog defaultParams).length then
      { s with netPc := s.netPc + 1 }
    else s
  else
    if s.btnPc < (button_worker_prog defaultParams 0).length then
      { s with btnPc := s.btnPc + 1 }
    else s

/-- Run a schedule from the state where the HTTP trigger request has
arrived and the button event has been dequeued. -/
def trigRun (sched : List Bool) : TrigSystem :=
  sched.foldl trigStep ⟨0, 0⟩

/-- The network task is inside send_double_pulse: it has executed at
least one of the 13 instructions of send_prog (indices 1 to 13 of its
program) and has not returned from it. -/
def netGenerating (s : TrigSystem) : Prop := 1 < s.netPc ∧ s.netPc < 14

/-- The button worker is inside send_double_pulse (send_prog occupies
indices 2 to 14 of its program). -/
def btnGenerating (s : TrigSystem) : Prop := 2 < s.btnPc ∧ s.btnPc < 15

instance (s : TrigSystem) : Decidable (netGenerating s) :=
  inferInstanceAs (Decidable (_ ∧ _))

instance (s : TrigSystem) : Decidable (btnGenerating s) :=
  inferInstanceAs (Decidable (_ ∧ _))

/-!
Interleaving model for one set racing one snapshot read (claim C2).
The writer is set_params_handler with all four keys present (its four
stores at lines 315, 318, 321, 324); the reader is the four loads of
send_double_pulse at lines 418-421.  No lock or atomic exists in the
source, so the scheduler may interleave the eight accesses freely.
-/

/-- Shared parameter state plus the progress and observations of the
writer and the reader. -/
structure SetGetState where
  params : PulseParams
  wPc : Nat
  rPc : Nat
  obs : List Nat
deriving DecidableEq, Repr

/-- One store of the writer: the four assignments of
set_params_handler, in source order. -/
def writerStep (newp : PulseParams) (s : SetGetState) : SetGetState :=
  match s.wPc with
  | 0 => { s with params := { s.params with pulse1_high := newp.pulse1_high }, wPc := 1 }
  | 1 => { s with params := { s.params with pulse1_low := newp.pulse1_low }, wPc := 2 }
  | 2 => { s with params := { s.params with pulse2_high := newp.pulse2_high }, wPc := 3 }
  | 3 => { s with params := { s.params with pulse2_low := newp.pulse2_low }, wPc := 4 }
  | _ => s

/-- One load of the reader: the four reads of the globals at the top of
send_double_pulse, in source order. -/
def readerStep (s : SetGetState) : SetGetState :=
  match s.rPc with
  | 0 => { s with obs := s.obs ++ [s.params.pulse1_high], rPc := 1 }
  | 1 => { s with obs := s.obs ++ [s.params.pulse1_low], rPc := 2 }
  | 2 => { s with obs := s.obs ++ [s.params.pulse2_high], rPc := 3 }
  | 3 => { s with obs := s.obs ++ [s.params.pulse2_low], rPc := 4 }
  | _ => s

/-- Scheduler step: true runs the writer, false runs the reader. -/
def setGetStep (newp : PulseParams) (s : SetGetState) (choice : Bool) :
    SetGetState :=
  if choice then writerStep newp s else readerStep s

/-- Run a schedule from the state holding oldp, with the writer about
to store newp and the reader about to snapshot. -/
def setGetRun (oldp newp : PulseParams) (sched : List Bool) : SetGetState :=
  sched.foldl (setGetStep newp) ⟨oldp, 0, 0, []⟩

/-- The snapshot the reader observed, once all four loads are done. -/
def observedParams (s : SetGetState) : Option PulseParams :=
  match s.obs with
  | [a, b, c, d] => some ⟨a, b, c, d⟩
  | _ => none

end DPT

namespace DPT

/-- Claim C4: with the default parameters (5, 1, 3, 10000) and the fixed
rate of 80 ticks per microsecond, the positive items are
(high,400),(low,80),(high,240),(low,800000) and the negative items are
the same durations with levels inverted. -/
theorem C4_default_waveforms :
    double_pulse_items_p defaultParams =
      [⟨400, 1, 80, 0⟩, ⟨240, 1, 800000, 0⟩] ∧
    double_pulse_items_n defaultParams =
      [⟨400, 0, 80, 1⟩, ⟨240, 0, 800000, 1⟩] := by
  constructor <;> rfl

/-- Claim C5: for every parameter record, the negative item list is
segment by segment the level inversion of the positive item list with
identical tick durations. -/
theorem C5_negative_inversion (p : PulseParams) :
    double_pulse_items_n p = (double_pulse_items_p p).map invertItem := by
  rfl

/-- Claim C1 is false on the code: under the schedule that advances the
network trigger handler three instructions and the button worker four,
both tasks are simultaneously inside send_double_pulse — the second
trigger was not dropped and a second concurrent transmission is in
progress.  No Generating state or lock exists anywhere in the source. -/
theorem C1_counterexample :
    netGenerating (trigRun [true, true, true, false, false, false, false]) ∧
    btnGenerating (trigRun [true, true, true, false, false, false, false]) := by
  decide

/-- Claim C1 amended: nothing arbitrates the two trigger sources; a
trigger arriving while a generation is in progress still proceeds, so
an interleaving exists in which two generations are concurrently in
progress. -/
theorem C1_amended :
    ∃ sched : List Bool,
      netGenerating (trigRun sched) ∧ btnGenerating (trigRun sched) :=
  ⟨[true, true, true, false, false, false, false], by decide⟩

/-- Claim C2 is false on the code: scheduling one store of the writer
(pulse1_high gets 6), then the four loads of the reader, makes the
reader observe (6, 1, 3, 10000) — a mix of the post-update pulse1_high
and the three pre-update fields of the same set call. -/
theorem C2_counterexample :
    observedParams
        (setGetRun defaultParams ⟨6, 2, 4, 20000⟩
          [true, false, false, false, false]) =
      some ⟨6, 1, 3, 10000⟩ ∧
    (⟨6, 1, 3, 10000⟩ : PulseParams) ≠ defaultParams ∧
    (⟨6, 1, 3, 10000⟩ : PulseParams) ≠ ⟨6, 2, 4, 20000⟩ := by
  decide

/-- Claim C2 amended: the four fields are stored one at a time with no
lock or atomic, so a snapshot read racing one set call can observe a
mix of pre-update and post-update values. -/
theorem C2_amended :
    ∃ (oldp newp : PulseParams) (sched : List Bool) (q : PulseParams),
      observedParams (setGetRun oldp newp sched) = some q ∧
      q ≠ oldp ∧ q ≠ newp :=
  ⟨defaultParams, ⟨6, 2, 4, 20000⟩, [true, false, false, false, false],
    ⟨6, 1, 3, 10000⟩, by decide⟩

/-- Claim C3 is false on the code: for pulse1_high = 53687092 the tick
count 53687092 * 80 = 4294967360 exceeds the uint32_t range, yet no
error is raised — the multiplication wraps to 64 and the waveform
carrying the wrapped duration is still written to the hardware. -/
theorem C3_counterexample :
    UINT32_MOD ≤ 53687092 * 80 ∧
    ticks 53687092 = 64 ∧
    double_pulse_items_p ⟨53687092, 1, 3, 10000⟩ =
      [⟨64, 1, 80, 0⟩, ⟨240, 1, 800000, 0⟩] ∧
    hasWriteEvent (send_double_pulse_trace ⟨53687092, 1, 3, 10000⟩) = true := by
  refine ⟨by norm_num [UINT32_MOD], by decide, by decide, by decide⟩

/-- Claim C3 amended: the tick conversion wraps modulo 2^32 silently;
no overflow error path exists, and for every parameter record the
trace of send_double_pulse still contains both waveform loads and both
start commands. -/
theorem C3_amended :
    ticks 53687092 = 64 ∧
    ∀ p : PulseParams,
      HwEvent.writeItems RmtChannel.channel0 (double_pulse_items_p p) false
          ∈ send_double_pulse_trace p ∧
      HwEvent.writeItems RmtChannel.channel1 (double_pulse_items_n p) false
          ∈ send_double_pulse_trace p ∧
      HwEvent.txStart RmtChannel.channel0 ∈ send_double_pulse_trace p ∧
      HwEvent.txStart RmtChannel.channel1 ∈ send_double_pulse_trace p := by
  refine ⟨by decide, fun p => ?_⟩
  refine ⟨?_, ?_, ?_, ?_⟩ <;> simp [send_double_pulse_trace]

/-- Claim C6 is false on the code: for the request body p1h=abc the
malformed value fits the extraction buffer, atoi turns it into 0 and
that 0 is stored (the field is not left unchanged: it was 5), and the
handler still returns ESP_OK instead of failure. -/
theorem C6_counterexample :
    (set_params_handler defaultParams [("p1h", "abc")]).params.pulse1_high = 0 ∧
    defaultParams.pulse1_high = 5 ∧
    (set_params_handler defaultParams [("p1h", "abc")]).ok = true := by
  decide

/-- Claim C6 amended: a malformed field value that fits the 10 byte
buffer is not rejected — it is run through atoi (0 for a fully
non-numeric string) and stored; the remaining fields are still
processed; and the handler returns success no matter what the field
values were. -/
theorem C6_amended (p : PulseParams) (body : List (String × String)) :
    (set_params_handler p body).ok = true ∧
    (set_params_handler p [("p1h", "abc"), ("p1l", "7")]).params =
      { p with pulse1_high := 0, pulse1_low := 7 } :=
  ⟨rfl, rfl⟩

/-- Claim C7: a field whose key is absent from the body keeps its
previous value; the outcome of the handler depends only on the lookups
of the four recognized keys (so unrecognized keys change nothing); and
the set handler performs no hardware call, hence never triggers a
generation. -/
theorem C7_frame (p : PulseParams) (body : List (String × String)) :
    (query_key_value body "p1h" 10 = none →
      (set_params_handler p body).params.pulse1_high = p.pulse1_high) ∧
    (query_key_value body "p1l" 10 = none →
      (set_params_handler p body).params.pulse1_low = p.pulse1_low) ∧
    (query_key_value body "p2h" 10 = none →
      (set_params_handler p body).params.pulse2_high = p.pulse2_high) ∧
    (query_key_value body "p2l" 10 = none →
      (set_params_handler p body).params.pulse2_low = p.pulse2_low) ∧
    (∀ body2 : List (String × String),
      (∀ k ∈ (["p1h", "p1l", "p2h", "p2l"] : List String),
        query_key_value body k 10 = query_key_value body2 k 10) →
      set_params_handler p body = set_params_handler p body2) ∧
    (set_params_handler p body).trace = [] := by
  refine ⟨?_, ?_, ?_, ?_, ?_, rfl⟩
  · intro h
    cases h2 : query_key_value body "p1l" 10 <;>
      cases h3 : query_key_value body "p2h" 10 <;>
        cases h4 : query_key_value body "p2l" 10 <;>
          simp [set_params_handler, updField, h, h2, h3, h4]
  · intro h
    cases h1 : query_key_value body "p1h" 10 <;>
      cases h3 : query_key_value body "p2h" 10 <;>
        cases h4 : query_key_value body "p2l" 10 <;>
          simp [set_params_handler, updField, h, h1, h3, h4]
  · intro h
    cases h1 : query_key_value body "p1h" 10 <;>
      cases h2 : query_key_value body "p1l" 10 <;>
        cases h4 : query_key_value body "p2l" 10 <;>
          simp [set_params_handler, updField, h, h1, h2, h4]
  · intro h
    cases h1 : query_key_value body "p1h" 10 <;>
      cases h2 : query_key_value body "p1l" 10 <;>
        cases h3 : query_key_value body "p2h" 10 <;>
          simp [set_params_handler, updField, h, h1, h2, h3]
  · intro body2 hk
    have e1 := hk "p1h" (by decide)
    have e2 := hk "p1l" (by decide)
    have e3 := hk "p2h" (by decide)
    have e4 := hk "p2l" (by decide)
    simp only [set_params_handler, e1, e2, e3, e4]

/-- Claim C7 witness: on the body holding only the unrecognized key x,
pulse1_high keeps its default value 5 and no hardware call is made. -/
theorem C7_witness :
    (set_params_handler defaultParams [("x", "1")]).params.pulse1_high =
      defaultParams.pulse1_high ∧
    (set_params_handler defaultParams [("x", "1")]).trace = [] :=
  ⟨(C7_frame defaultParams [("x", "1")]).1 (by decide),
   (C7_frame defaultParams [("x", "1")]).2.2.2.2.2⟩

/-- Claim C8: send_double_pulse performs exactly, and in this order:
stop of both channels, load of the positive items into channel 0 and
the negative items into channel 1 with the no-immediate-send flag, the
settling delay vTaskDelay(50), entry into the critical section, the two
start commands back-to-back with nothing between them, exit of the
critical section, then the two unbounded completion waits. -/
theorem C8_transmit_protocol (p : PulseParams) :
    send_double_pulse_trace p =
      [ HwEvent.txStop RmtChannel.channel0,
        HwEvent.txStop RmtChannel.channel1,
        HwEvent.writeItems RmtChannel.channel0 (double_pulse_items_p p) false,
        HwEvent.writeItems RmtChannel.channel1 (double_pulse_items_n p) false,
        HwEvent.delayTicks 50,
        HwEvent.enterCritical,
        HwEvent.txStart RmtChannel.channel0,
        HwEvent.txStart RmtChannel.channel1,
        HwEvent.exitCritical,
        HwEvent.waitTxDone RmtChannel.channel0,
        HwEvent.waitTxDone RmtChannel.channel1 ] := by
  rfl

/-- Claim C9: the ISR only disables the button interrupt and enqueues
the event — it contains no generation and no delay (it never blocks and
never calls the transmitter) — and the deferred worker receives the
event, waits 1000 ms, runs the generation, waits 200 ms, and only then
re-enables the interrupt, in that order. -/
theorem C9_button_path (p : PulseParams) (g io : Nat) :
    button_isr_trace g =
      [ButtonEvent.disableIntr g, ButtonEvent.queueSendFromISR g] ∧
    (∀ e ∈ button_isr_trace g,
      (∀ tr, e ≠ ButtonEvent.generate tr) ∧ ∀ n, e ≠ ButtonEvent.delayMs n) ∧
    button_event_iteration p io =
      [ ButtonEvent.queueReceive,
        ButtonEvent.delayMs 1000,
        ButtonEvent.generate (send_double_pulse_trace p),
        ButtonEvent.delayMs 200,
        ButtonEvent.enableIntr io ] := by
  refine ⟨rfl, ?_, rfl⟩
  intro e he
  simp only [button_isr_trace, List.mem_cons, List.mem_singleton,
    List.not_mem_nil, or_false] at he
  rcases he with rfl | rfl
  · exact ⟨fun tr h => ButtonEvent.noConfusion h,
      fun n h => ButtonEvent.noConfusion h⟩
  · exact ⟨fun tr h => ButtonEvent.noConfusion h,
      fun n h => ButtonEvent.noConfusion h⟩

/-- Claim C9 witness: instantiation at the default parameters and
GPIO 0 (BUTTON_GPIO). -/
theorem C9_button_path_witness :
    ButtonEvent.disableIntr 0 ∈ button_isr_trace 0 ∧
    (∀ tr, ButtonEvent.disableIntr 0 ≠ ButtonEvent.generate tr) :=
  ⟨by decide,
   ((C9_button_path defaultParams 0 0).2.1
     (ButtonEvent.disableIntr 0) (by decide)).1⟩

/-- Claim C10: a supplied value string of 10 or more characters does
not fit char param_val[10], so the lookup fails and the field keeps its
previous value; the 9 digit value 999999999 is the largest decimal
value that is stored, while the 10 character string 1000000000 leaves
the field unchanged. -/
theorem C10_buffer_limit (p : PulseParams) (v : String) (h : 10 ≤ v.length) :
    (set_params_handler p [("p1h", v)]).params.pulse1_high = p.pulse1_high ∧
    (set_params_handler p [("p1h", "999999999")]).params.pulse1_high =
      999999999 ∧
    (set_params_handler p [("p1h", "1000000000")]).params.pulse1_high =
      p.pulse1_high := by
  refine ⟨?_, rfl, rfl⟩
  have hq : query_key_value [("p1h", v)] "p1h" 10 = none := by
    show (if v.length + 1 ≤ 10 then some v else none) = none
    rw [if_neg (by omega)]
  have hq2 : query_key_value [("p1h", v)] "p1l" 10 = none := rfl
  have hq3 : query_key_value [("p1h", v)] "p2h" 10 = none := rfl
  have hq4 : query_key_value [("p1h", v)] "p2l" 10 = none := rfl
  simp [set_params_handler, updField, hq, hq2, hq3, hq4]

/-- Claim C10 witness: the 10 character value abcdefghij is rejected
and pulse1_high keeps its default value. -/
theorem C10_witness :
    10 ≤ ("abcdefghij" : String).length ∧
    (set_params_handler defaultParams
        [("p1h", "abcdefghij")]).params.pulse1_high =
      defaultParams.pulse1_high :=
  ⟨by decide, (C10_buffer_limit defaultParams "abcdefghij" (by decide)).1⟩

end DPT
